import Mathlib

/-!
Shallow embedding of src/run_consumer.js from the ICONI_Mongo repository:
the change-stream consumer that buffers update events into batches of a
configured size, simulates per-batch work, and prints throughput and
latency metrics from a close handler after an idle timeout.

Conventions used throughout:
* Document keys and document payloads are modelled as natural numbers.
* Durations and timestamps are rationals, in milliseconds.
* JavaScript number division is modelled by the explicit JSNum type so
  that division by zero (NaN, Infinity) is represented faithfully;
  rounding is irrelevant to every claim checked here, so finite values
  are exact rationals and negative zero is conflated with zero.
* An async JavaScript function runs synchronously up to its first await,
  and a continuation after an await can run only after the currently
  executing job finishes.  This run-to-completion rule is what makes the
  close handler compute the final report before the unawaited last
  processBatch call can update the counters in fullDocument=default mode,
  while in updateLookup mode processBatch contains no await and updates
  the counters synchronously.
-/

namespace ICONI

/-- Values of the fullDocument command line option of run_consumer.js
(yargs choices: default, updateLookup). -/
inductive FullDocMode where
  | default
  | updateLookup
  deriving DecidableEq, Repr

/-- One change stream notification as consumed by run_consumer.js: the
consumer reads event.documentKey._id and, in updateLookup mode,
event.fullDocument. -/
structure ChangeEvent where
  documentKey : ℕ
  fullDocument : Option ℕ
  deriving DecidableEq, Repr

/-- JavaScript double values reachable by the metric formulas of the
close handler: NaN, the two infinities, and finite values. -/
inductive JSNum where
  | nan
  | inf
  | negInf
  | fin (q : ℚ)
  deriving DecidableEq, Repr

/-- JavaScript division of two finite numbers: 0/0 is NaN, a nonzero
numerator over zero is a signed infinity, otherwise exact division. -/
def jsDiv (a b : ℚ) : JSNum :=
  if b = 0 then
    if a = 0 then JSNum.nan else if 0 < a then JSNum.inf else JSNum.negInf
  else JSNum.fin (a / b)

/-- JavaScript division where either operand may already be NaN or
infinite; used for M2, whose denominator numBatches is itself a quotient. -/
def jsDivJ : JSNum → JSNum → JSNum
  | JSNum.nan, _ => JSNum.nan
  | _, JSNum.nan => JSNum.nan
  | JSNum.fin a, JSNum.fin b => jsDiv a b
  | JSNum.inf, JSNum.inf => JSNum.nan
  | JSNum.inf, JSNum.negInf => JSNum.nan
  | JSNum.negInf, JSNum.inf => JSNum.nan
  | JSNum.negInf, JSNum.negInf => JSNum.nan
  | JSNum.inf, JSNum.fin b => if b < 0 then JSNum.negInf else JSNum.inf
  | JSNum.negInf, JSNum.fin b => if b < 0 then JSNum.inf else JSNum.negInf
  | JSNum.fin _, JSNum.inf => JSNum.fin 0
  | JSNum.fin _, JSNum.negInf => JSNum.fin 0

/-- Multiplication of a JavaScript number by a finite factor; in this
development it is only instantiated with the positive constant 1000. -/
def jsMul : JSNum → ℚ → JSNum
  | JSNum.nan, _ => JSNum.nan
  | JSNum.inf, _ => JSNum.inf
  | JSNum.negInf, _ => JSNum.negInf
  | JSNum.fin a, c => JSNum.fin (a * c)

/-- The two global accumulators of run_consumer.js:
totalEventsProcessed and totalProcessingTimeMs. -/
structure Metrics where
  totalEventsProcessed : ℕ
  totalProcessingTimeMs : ℚ
  deriving DecidableEq, Repr

/-- Both accumulators start at zero. -/
def initMetrics : Metrics := ⟨0, 0⟩

/-- Effect of one processBatch call on the accumulators.  latency is the
duration measured by the hrtime bracket around the try block; work is the
outcome of the awaited core logic (the bulk find in default mode — in
updateLookup mode the core is a pure map over the events and cannot
throw).  On an exception, the catch clause only logs (Bool result true),
and the two accumulator updates, which come after the core logic inside
the try block, are skipped. -/
def processBatch (m : Metrics) (batch : List ChangeEvent) (latency : ℚ)
    (work : Except String Unit) : Metrics × Bool :=
  match work with
  | Except.error _ => (m, true)
  | Except.ok _ =>
      (⟨m.totalEventsProcessed + batch.length, m.totalProcessingTimeMs + latency⟩, false)

/-- Store queries issued by one processBatch call: in default mode a
single bulk find with filter { _id: { $in: docIds } }, where docIds maps
event.documentKey._id over the batch; in updateLookup mode none. -/
def batchLookups : FullDocMode → List ChangeEvent → List (List ℕ)
  | FullDocMode.default, batch => [batch.map ChangeEvent.documentKey]
  | FullDocMode.updateLookup, _ => []

/-- Documents consumed directly from the events: the updateLookup branch
maps event.fullDocument over the batch, the default branch reads nothing
from the events beyond the keys. -/
def batchConsumed : FullDocMode → List ChangeEvent → List (Option ℕ)
  | FullDocMode.default, _ => []
  | FullDocMode.updateLookup, batch => batch.map ChangeEvent.fullDocument

/-- Result of collection.find with an $in filter, over a store of
(key, document) pairs: exactly the stored documents whose key occurs in
the id list. -/
def findIn (store : List (ℕ × ℕ)) (ids : List ℕ) : List (ℕ × ℕ) :=
  store.filter fun kd => decide (kd.1 ∈ ids)

/-- State of the change listener: the shared eventBatch buffer, plus the
batches already copied out and handed to processBatch, oldest first. -/
structure BatchState where
  eventBatch : List ChangeEvent
  flushed : List (List ChangeEvent)
  deriving DecidableEq, Repr

/-- The change listener of run_consumer.js: push the event, and when the
buffer length has reached batchSize, copy the buffer out, clear it, and
hand the copy to processBatch. -/
def onChangeBatch (batchSize : ℕ) (s : BatchState) (e : ChangeEvent) : BatchState :=
  let buf := s.eventBatch ++ [e]
  if batchSize ≤ buf.length then ⟨[], s.flushed ++ [buf]⟩ else ⟨buf, s.flushed⟩

/-- Buffer and flush state after a sequence of change events has been
delivered in feed order. -/
def ingest (batchSize : ℕ) (events : List ChangeEvent) : BatchState :=
  events.foldl (onChangeBatch batchSize) ⟨[], []⟩

/-- Folds processBatch over a list of batches paired with their measured
latency and core-work outcome, returning the final accumulators together
with the per-batch error-logged flags in order. -/
def runFold (m : Metrics) :
    List (List ChangeEvent × ℚ × Except String Unit) → Metrics × List Bool
  | [] => (m, [])
  | (B, l, w) :: rest =>
      let r := processBatch m B l w
      let t := runFold r.1 rest
      (t.1, r.2 :: t.2)

/-- The FINAL RESULTS block printed by the close handler, evaluated from
the accumulators at the moment the handler reaches those lines. -/
structure Report where
  totalEventsProcessed : ℕ
  totalProcessingTimeMs : ℚ
  M1_Throughput : JSNum
  numBatches : JSNum
  M2_AvgBatchLatency : JSNum
  deriving DecidableEq, Repr

/-- Metric formulas of the close handler:
M1 = (totalEventsProcessed / totalProcessingTimeMs) * 1000,
numBatches = totalEventsProcessed / batchSize,
M2 = totalProcessingTimeMs / numBatches. -/
def mkReport (batchSize : ℕ) (m : Metrics) : Report :=
  let nb := jsDiv (m.totalEventsProcessed : ℚ) (batchSize : ℚ)
  { totalEventsProcessed := m.totalEventsProcessed,
    totalProcessingTimeMs := m.totalProcessingTimeMs,
    M1_Throughput := jsMul (jsDiv (m.totalEventsProcessed : ℚ) m.totalProcessingTimeMs) 1000,
    numBatches := nb,
    M2_AvgBatchLatency := jsDivJ (JSNum.fin m.totalProcessingTimeMs) nb }

/-- Outcome of one consumer run that ends through the idle timeout, the
only termination path of run_consumer.js: stopConsumer closes the change
stream, the close handler drains any leftover buffer, prints the FINAL
RESULTS report and closes the client, and the process then exits
normally with status 0 (the script never sets an exit code). -/
structure RunOutcome where
  report : Report
  reportEmitted : Bool
  exitCode : ℕ
  deriving DecidableEq, Repr

/-- Whole-run model of run_consumer.js in the idle-timeout scenario.
events are the update notifications delivered before the 30 s idle
window elapses; lat i and work i give the measured duration and the
core-work outcome of the i-th processBatch call.  Batches flushed during
ingestion have their awaited work resolve during the 30 s idle window,
so their accumulator updates are visible to the close handler.  The
leftover buffer is handed to processBatch inside the close handler
without await: in updateLookup mode processBatch contains no await and
updates the accumulators synchronously before the report lines run,
while in default mode it suspends at the awaited find, so the report is
computed from the accumulators without that final call.  In updateLookup
mode the core logic is a pure map and cannot throw, so its outcome is
Except.ok regardless of work. -/
def runConsumer (mode : FullDocMode) (batchSize : ℕ) (events : List ChangeEvent)
    (lat : ℕ → ℚ) (work : ℕ → Except String Unit) : RunOutcome :=
  let s := ingest batchSize events
  let effWork : ℕ → Except String Unit := fun i =>
    match mode with
    | FullDocMode.default => work i
    | FullDocMode.updateLookup => Except.ok ()
  let triples := s.flushed.enum.map fun p => (p.2, lat p.1, effWork p.1)
  let m1 := (runFold initMetrics triples).1
  let k := s.flushed.length
  let atReport :=
    if s.eventBatch.isEmpty then m1
    else
      match mode with
      | FullDocMode.updateLookup =>
          (processBatch m1 s.eventBatch (lat k) (Except.ok ())).1
      | FullDocMode.default => m1
  { report := mkReport batchSize atReport, reportEmitted := true, exitCode := 0 }

/-- Lifecycle-relevant state of the consumer: whether the change stream
is open, the pending idle timeout (none when no timer is armed), and
whether the FINAL RESULTS report has been printed. -/
structure LifeState where
  streamOpen : Bool
  idleDeadline : Option ℚ
  reportEmitted : Bool
  deriving DecidableEq, Repr

/-- startConsumer arms the first 30 s idle timeout right after setting up
the change stream. -/
def initLife (t0 : ℚ) : LifeState := ⟨true, some (t0 + 30000), false⟩

/-- The timer-resetting change listener: clearTimeout followed by a fresh
setTimeout(stopConsumer, 30000).  A closed stream emits no change
events, so the state is unchanged in that case. -/
def onChangeTimer (s : LifeState) (t : ℚ) : LifeState :=
  if s.streamOpen then ⟨true, some (t + 30000), s.reportEmitted⟩ else s

/-- Expiry of the idle timeout: stopConsumer closes the change stream,
whose close handler prints the report; no new timer is armed. -/
def onIdleFire (_s : LifeState) : LifeState := ⟨false, none, true⟩

/-- Error thrown by collection.drop, carrying its codeName. -/
structure DropErr where
  codeName : String
  deriving DecidableEq, Repr

/-- The try/catch around collection.drop in startConsumer: an error whose
codeName is NamespaceNotFound is swallowed, any other error is rethrown. -/
def handleDrop : Except DropErr Unit → Except DropErr Unit
  | Except.ok _ => Except.ok ()
  | Except.error e =>
      if e.codeName = "NamespaceNotFound" then Except.ok () else Except.error e

/-- The externally visible startup steps of startConsumer. -/
inductive StartupAction where
  | connect
  | dropCollection
  | openChangeStream
  deriving DecidableEq, Repr

/-- Steps performed by startConsumer in order: connect, drop the watched
collection, and, only when the drop outcome is not rethrown, open the
change stream.  A rethrown drop error reaches the outer catch, which
logs and closes the client without ever opening the stream. -/
def startupTrace (dropResult : Except DropErr Unit) : List StartupAction :=
  [StartupAction.connect, StartupAction.dropCollection] ++
    (match handleDrop dropResult with
     | Except.ok _ => [StartupAction.openChangeStream]
     | Except.error _ => [])

/-- Effect of collection.drop on the stored documents: all destroyed. -/
def dropEffect (_store : List (ℕ × ℕ)) : List (ℕ × ℕ) := []

/-- Five measured events with keys 1..5 (the [A,B,C,D,E] scenario). -/
def evsFive : List ChangeEvent :=
  [⟨1, some 1⟩, ⟨2, some 2⟩, ⟨3, some 3⟩, ⟨4, some 4⟩, ⟨5, some 5⟩]

/-- Six measured events, forming two full batches at batchSize 3. -/
def evsSix : List ChangeEvent := evsFive ++ [⟨6, some 6⟩]

/-- Batch durations: 100 ms for the first batch, 300 ms for later ones. -/
def latC1 : ℕ → ℚ := fun i => if i = 0 then 100 else 300

/-- Constant batch duration of 100 ms. -/
def latHundred : ℕ → ℚ := fun _ => 100

/-- Core work that always succeeds. -/
def workOk : ℕ → Except String Unit := fun _ => Except.ok ()

lemma ingest_append (b : ℕ) (es : List ChangeEvent) (e : ChangeEvent) :
    ingest b (es ++ [e]) = onChangeBatch b (ingest b es) e := by
  simp [ingest, List.foldl_append]

lemma ingest_invariant (b : ℕ) (hb : 1 ≤ b) (es : List ChangeEvent) :
    (ingest b es).eventBatch.length < b ∧
      (∀ B ∈ (ingest b es).flushed, B.length = b) ∧
      (ingest b es).flushed.flatten ++ (ingest b es).eventBatch = es := by
  induction es using List.reverseRecOn with
  | nil =>
      refine ⟨?_, ?_, ?_⟩
      · simpa [ingest] using hb
      · intro B hB
        simp [ingest] at hB
      · simp [ingest]
  | append_singleton es e ih =>
      obtain ⟨h1, h2, h3⟩ := ih
      rw [ingest_append]
      simp only [onChangeBatch]
      split_ifs with hfull
      · refine ⟨by simpa using hb, ?_, ?_⟩
        · intro B hB
          simp only [List.mem_append, List.mem_singleton] at hB
          rcases hB with hB | hB
          · exact h2 B hB
          · subst hB
            simp only [List.length_append, List.length_singleton]
            simp only [List.length_append, List.length_singleton] at hfull
            omega
        · simp only [List.flatten_append, List.flatten_cons, List.flatten_nil,
            List.append_nil, List.append_assoc]
          rw [← List.append_assoc, h3]
      · refine ⟨?_, h2, ?_⟩
        · simp only [List.length_append, List.length_singleton] at hfull ⊢
          omega
        · rw [← List.append_assoc, h3]

lemma join_length_const (b : ℕ) (L : List (List ChangeEvent))
    (h : ∀ B ∈ L, B.length = b) : L.flatten.length = b * L.length := by
  induction L with
  | nil => simp
  | cons B L ih =>
      have hB : B.length = b := h B (by simp)
      have hL := ih fun C hC => h C (by simp [hC])
      simp only [List.flatten_cons, List.length_append, List.length_cons, hB, hL,
        Nat.mul_succ]
      omega

lemma runFold_flags_length
    (L : List (List ChangeEvent × ℚ × Except String Unit)) :
    ∀ m, (runFold m L).2.length = L.length := by
  induction L with
  | nil => intro m; simp [runFold]
  | cons p L ih =>
      intro m
      obtain ⟨B, l, w⟩ := p
      simp [runFold, ih]

/-- C5: after n measured events at batch size b ≥ 1, exactly n / b full
batches have been flushed to processBatch, n % b events remain buffered,
every flushed batch has exactly b events, and the flushed batches
followed by the buffer reproduce the events in arrival order. -/
theorem c5_batcher_floor_mod (b : ℕ) (hb : 1 ≤ b) (es : List ChangeEvent) :
    (ingest b es).flushed.length = es.length / b ∧
      (ingest b es).eventBatch.length = es.length % b ∧
      (∀ B ∈ (ingest b es).flushed, B.length = b) ∧
      (ingest b es).flushed.flatten ++ (ingest b es).eventBatch = es := by
  obtain ⟨h1, h2, h3⟩ := ingest_invariant b hb es
  have hjoin := join_length_const b (ingest b es).flushed h2
  have hlen : es.length =
      b * (ingest b es).flushed.length + (ingest b es).eventBatch.length := by
    conv_lhs => rw [← h3]
    simp [hjoin]
  have hdiv : es.length / b = (ingest b es).flushed.length := by
    rw [hlen, Nat.mul_add_div (by omega), Nat.div_eq_of_lt h1, Nat.add_zero]
  have hmod : es.length % b = (ingest b es).eventBatch.length := by
    rw [hlen, Nat.mul_add_mod, Nat.mod_eq_of_lt h1]
  exact ⟨hdiv.symm, hmod.symm, h2, h3⟩

/-- Witness for c5_batcher_floor_mod: batch size 2 with five events. -/
theorem c5_batcher_floor_mod_witness :
    1 ≤ 2 ∧
      ((ingest 2 evsFive).flushed.length = evsFive.length / 2 ∧
        (ingest 2 evsFive).eventBatch.length = evsFive.length % 2 ∧
        (∀ B ∈ (ingest 2 evsFive).flushed, B.length = 2) ∧
        (ingest 2 evsFive).flushed.flatten ++ (ingest 2 evsFive).eventBatch = evsFive) :=
  ⟨by decide, c5_batcher_floor_mod 2 (by decide) evsFive⟩

/-- C9: a failed batch leaves both accumulators untouched and only sets
the logged flag: the failing batch is excluded from the event count and
from the latency sum. -/
theorem c9_failed_batch_excluded (m : Metrics) (B : List ChangeEvent) (l : ℚ)
    (msg : String) : processBatch m B l (Except.error msg) = (m, true) := rfl

/-- C6: a failing batch never stops the run: its error is only logged
(the flag at its position is true), every batch is still handed to
processBatch (the flag list covers all of them), and the final
accumulators equal those of the same run without the failing batch. -/
theorem c6_batch_failure_isolated (m : Metrics)
    (Bs1 : List (List ChangeEvent × ℚ × Except String Unit))
    (B : List ChangeEvent) (l : ℚ) (msg : String)
    (Bs2 : List (List ChangeEvent × ℚ × Except String Unit)) :
    (runFold m (Bs1 ++ (B, l, Except.error msg) :: Bs2)).1 =
        (runFold m (Bs1 ++ Bs2)).1 ∧
      (runFold m (Bs1 ++ (B, l, Except.error msg) :: Bs2)).2.length =
        Bs1.length + 1 + Bs2.length ∧
      (runFold m (Bs1 ++ (B, l, Except.error msg) :: Bs2)).2[Bs1.length]? =
        some true := by
  induction Bs1 generalizing m with
  | nil =>
      refine ⟨?_, ?_, ?_⟩
      · simp [runFold, processBatch]
      · have hfl := runFold_flags_length Bs2 m
        show (true :: (runFold m Bs2).2).length = 0 + 1 + Bs2.length
        simp only [List.length_cons]
        omega
      · simp [runFold, processBatch]
  | cons p Bs1 ih =>
      obtain ⟨B0, l0, w0⟩ := p
      obtain ⟨ha, hlen2, hget⟩ := ih (processBatch m B0 l0 w0).1
      refine ⟨?_, ?_, ?_⟩
      · exact ha
      · show
          ((processBatch m B0 l0 w0).2 ::
            (runFold (processBatch m B0 l0 w0).1
              (Bs1 ++ (B, l, Except.error msg) :: Bs2)).2).length =
          Bs1.length + 1 + 1 + Bs2.length
        simp only [List.length_cons]
        omega
      · show
          ((processBatch m B0 l0 w0).2 ::
            (runFold (processBatch m B0 l0 w0).1
              (Bs1 ++ (B, l, Except.error msg) :: Bs2)).2)[Bs1.length + 1]? =
          some true
        rw [List.getElem?_cons_succ]
        exact hget

/-- C7: in default mode processBatch issues exactly one bulk lookup
whose keys are exactly the keys of the batch, the $in find resolves
exactly the stored documents bearing those keys, and one successful
batch adds exactly one latency value to the accumulator; in updateLookup
mode no lookup is issued and the fullDocument attached to each event is
consumed. -/
theorem c7_processor_modes (batch : List ChangeEvent) (store : List (ℕ × ℕ))
    (m : Metrics) (l : ℚ) :
    batchLookups FullDocMode.default batch = [batch.map ChangeEvent.documentKey] ∧
      (∀ kd : ℕ × ℕ, kd ∈ findIn store (batch.map ChangeEvent.documentKey) ↔
        kd ∈ store ∧ kd.1 ∈ batch.map ChangeEvent.documentKey) ∧
      (processBatch m batch l (Except.ok ())).1.totalProcessingTimeMs =
        m.totalProcessingTimeMs + l ∧
      batchLookups FullDocMode.updateLookup batch = [] ∧
      batchConsumed FullDocMode.updateLookup batch =
        batch.map ChangeEvent.fullDocument := by
  refine ⟨rfl, ?_, rfl, rfl, rfl⟩
  intro kd
  simp [findIn]

/-- C8: while the stream is open every measured event re-arms the idle
deadline to 30 s after its arrival; expiry runs stopConsumer, which
closes the stream and emits the report (the normal termination path),
and afterwards no event can arm a timer again. -/
theorem c8_idle_timer_lifecycle (d : Option ℚ) (r : Bool) (t t2 : ℚ) :
    (onChangeTimer ⟨true, d, r⟩ t).idleDeadline = some (t + 30000) ∧
      (onIdleFire ⟨true, d, r⟩).reportEmitted = true ∧
      (onIdleFire ⟨true, d, r⟩).streamOpen = false ∧
      (onIdleFire ⟨true, d, r⟩).idleDeadline = none ∧
      (onChangeTimer (onIdleFire ⟨true, d, r⟩) t2).idleDeadline = none := by
  refine ⟨?_, rfl, rfl, rfl, ?_⟩ <;> simp [onChangeTimer, onIdleFire]

/-- C10: startConsumer connects and drops the watched collection before
any stream is opened, the drop destroys all stored documents, and the
change stream is opened exactly when the drop succeeded or failed with
codeName NamespaceNotFound; any other drop error aborts startup before
the stream exists. -/
theorem c10_startup_drop_policy (res : Except DropErr Unit)
    (store : List (ℕ × ℕ)) :
    (startupTrace res).take 2 =
        [StartupAction.connect, StartupAction.dropCollection] ∧
      dropEffect store = [] ∧
      (StartupAction.openChangeStream ∈ startupTrace res ↔
        res = Except.ok () ∨
          ∃ e, res = Except.error e ∧ e.codeName = "NamespaceNotFound") := by
  refine ⟨?_, rfl, ?_⟩
  · cases res with
    | ok u => rfl
    | error e =>
        by_cases h : e.codeName = "NamespaceNotFound" <;>
          simp [startupTrace, handleDrop, h]
  · cases res with
    | ok u =>
        cases u
        simp [startupTrace, handleDrop]
    | error e =>
        by_cases h : e.codeName = "NamespaceNotFound" <;>
          simp [startupTrace, handleDrop, h]

/-- C1 (code evaluation): with six events at batchSize 3 in updateLookup
mode and batch durations 100 ms and 300 ms, the close handler reports
M1 = (6 / 400) * 1000 = 15, i.e. the throughput is computed from the
accumulated sum of the per-batch processing durations; the program never
records a wall-clock measurement start. -/
theorem c1_throughput_from_latency_sum :
    (runConsumer FullDocMode.updateLookup 3 evsSix latC1 workOk).report.totalProcessingTimeMs
        = 400 ∧
      (runConsumer FullDocMode.updateLookup 3 evsSix latC1 workOk).report.M1_Throughput
        = JSNum.fin 15 := by
  refine ⟨?_, ?_⟩ <;>
    norm_num [runConsumer, ingest, onChangeBatch, runFold, processBatch,
      initMetrics, mkReport, jsDiv, jsDivJ, jsMul, evsFive, evsSix, latC1,
      workOk, List.enum, List.enumFrom]

/-- C2 (code evaluation): batchSize 3, events [A,B,C,D,E], then the idle
timeout fires.  In default mode the close handler prints the report
before the unawaited final processBatch call resolves, so the report
counts only the 3 events of the first batch; in updateLookup mode all
5 events are counted, but numBatches is the quotient 5 / 3, not a batch
count of 2. -/
theorem c2_final_drain_eval :
    (runConsumer FullDocMode.default 3 evsFive latHundred workOk).report.totalEventsProcessed
        = 3 ∧
      (runConsumer FullDocMode.updateLookup 3 evsFive latHundred workOk).report.totalEventsProcessed
        = 5 ∧
      (runConsumer FullDocMode.updateLookup 3 evsFive latHundred workOk).report.numBatches
        = JSNum.fin (5 / 3) ∧
      (5 : ℚ) / 3 ≠ 2 := by
  refine ⟨?_, ?_, ?_, ?_⟩ <;>
    norm_num [runConsumer, ingest, onChangeBatch, runFold, processBatch,
      initMetrics, mkReport, jsDiv, jsDivJ, jsMul, evsFive, latHundred,
      workOk, List.enum, List.enumFrom]

/-- C3 (counterexample): a run in which zero measured events ever arrive
still prints the FINAL RESULTS report through the normal close path, and
the process exits with status 0: there is no fatal seeding-timeout path
and no distinguished failure status. -/
theorem c3_zero_events_counterexample :
    (runConsumer FullDocMode.default 3 [] latHundred workOk).reportEmitted = true ∧
      (runConsumer FullDocMode.default 3 [] latHundred workOk).exitCode = 0 ∧
      (runConsumer FullDocMode.default 3 [] latHundred workOk).report.totalEventsProcessed
        = 0 := by
  refine ⟨rfl, rfl, rfl⟩

/-- C3 (amended): when zero measured events arrive, the single 30 s idle
timeout fires, the consumer shuts down through the normal close path,
emits a report with zero processed events and NaN throughput and
latency, and the process exits with status 0. -/
theorem c3_zero_events_amended (mode : FullDocMode) (b : ℕ) (lat : ℕ → ℚ)
    (work : ℕ → Except String Unit) :
    (runConsumer mode b [] lat work).reportEmitted = true ∧
      (runConsumer mode b [] lat work).exitCode = 0 ∧
      (runConsumer mode b [] lat work).report.totalEventsProcessed = 0 ∧
      (runConsumer mode b [] lat work).report.M1_Throughput = JSNum.nan ∧
      (runConsumer mode b [] lat work).report.M2_AvgBatchLatency = JSNum.nan := by
  refine ⟨rfl, rfl, rfl, ?_, ?_⟩ <;>
    · by_cases hb : (b : ℚ) = 0 <;>
        simp [runConsumer, mkReport, initMetrics, runFold, ingest, jsDiv, jsDivJ,
          jsMul, zero_div, hb]

/-- C4 (counterexample): at the zero boundary (no events processed, zero
accumulated time) the report contains NaN for both the throughput M1 and
the average batch latency M2, not 0. -/
theorem c4_zero_boundary_counterexample :
    (mkReport 3 ⟨0, 0⟩).M1_Throughput = JSNum.nan ∧
      (mkReport 3 ⟨0, 0⟩).M2_AvgBatchLatency = JSNum.nan ∧
      JSNum.nan ≠ JSNum.fin 0 := by
  refine ⟨?_, ?_, by simp⟩ <;>
    norm_num [mkReport, jsDiv, jsDivJ, jsMul]

/-- C4 (amended): for every batchSize, the report computed from zero
events and zero accumulated time yields NaN, not 0, for both M1 and M2:
the computation is total, but the unguarded JavaScript divisions produce
NaN at the zero boundary. -/
theorem c4_zero_boundary_amended (b : ℕ) :
    (mkReport b ⟨0, 0⟩).M1_Throughput = JSNum.nan ∧
      (mkReport b ⟨0, 0⟩).M2_AvgBatchLatency = JSNum.nan := by
  by_cases hb : (b : ℚ) = 0 <;>
    simp [mkReport, jsDiv, jsDivJ, jsMul, zero_div, hb]

end ICONI
